import Mathlib

/-
Verification development for the `evidah-node-scripts` helpdesk backend.

Shallow embedding conventions:
- Firestore documents become Lean structures; a subcollection becomes a list
  field on its parent; a collection becomes a `List` of documents whose order
  models snapshot iteration order.
- JS strings become `String`; an absent/`undefined` string field is modelled
  as `""` when the code only ever tests it for truthiness, and as `Option`
  when presence is tested with `in` (the ticket-level `aiOn` override).
- Dates become abstract `Nat` timestamps (the `date == "current"` wall-clock
  branch of the HTTP wrapper is outside the model; no claim touches it).
- External collaborators (SMTP send, the FCM batch/single send, the AI
  responder, the regex-based HTML quote stripper, the HTML template renderer)
  are taken as explicit function arguments, per the spec's "consumed as
  opaque collaborators / pure text-transform functions" scoping.
- String scanning is implemented by structural recursion over `String.data`
  so that every definition evaluates inside the kernel.
-/

namespace Evidah

/-! ### Character-list string utilities (JS `split` / `trim` / `startsWith` /
`includes` / `indexOf` counterparts) -/

/-- JS `line.trim()`: strip whitespace from both ends. -/
def stringTrim (s : String) : String :=
  ⟨((s.data.dropWhile Char.isWhitespace).reverse.dropWhile Char.isWhitespace).reverse⟩

/-- JS `s.startsWith(p)`. -/
def stringStartsWith (s p : String) : Bool :=
  p.data.isPrefixOf s.data

/-- Helper for `includes`: does `sub` occur as a contiguous run in `s`? -/
def hasSubstring : List Char → List Char → Bool
  | [], sub => sub.isEmpty
  | c :: rest, sub => sub.isPrefixOf (c :: rest) || hasSubstring rest sub

/-- JS `s.includes(sub)`. -/
def includes (s sub : String) : Bool :=
  hasSubstring s.data sub.data

/-- JS `emailString.split('\n')`. -/
def splitLines (s : String) : List String :=
  (s.data.splitOn '\n').map (fun l => ⟨l⟩)

/-- JS `array.join(' ')`. -/
def joinWithSpace (ls : List String) : String :=
  ⟨List.intercalate [' '] (ls.map String.data)⟩

/-- The characters strictly before the first occurrence of `c`, or `none`
when `c` does not occur (JS `indexOf` returning `-1`). -/
def takeBeforeChar (c : Char) : List Char → Option (List Char)
  | [] => none
  | x :: xs => if x == c then some [] else (takeBeforeChar c xs).map (fun l => x :: l)

/-! ### emailHelpers.js -/

/-- `extractEmailName` (emailHelpers.js 72-78): the part of the address before
the first `'@'`, or `none` when there is no `'@'`. -/
def extractEmailName (email : String) : Option String :=
  (takeBeforeChar '@' email.data).map (fun l => ⟨l⟩)

/-- `extractTopLevelMessage` (emailHelpers.js 15-40): walk the lines; once a
line starts with `"On "` or `">"` the top-level section is over (that line
included); collect the trimmed non-empty top-level lines and join with a
space. -/
def extractTopLevelMessage (emailString : String) : String :=
  let lines := splitLines emailString
  let step := fun (acc : Bool × List String) (line : String) =>
    let inTop := if stringStartsWith line "On " || stringStartsWith line ">" then false else acc.1
    if inTop && stringTrim line != "" then (inTop, acc.2 ++ [stringTrim line]) else (inTop, acc.2)
  joinWithSpace (lines.foldl step (true, [])).2

/-! ### Data model -/

/-- A document of a ticket's `messages` subcollection (the object literal
built at makeContact.js 67 fixes the field set). `from`/`to` are renamed
`from_`/`to` because `from` is reserved in Lean. -/
structure Message where
  from_ : String
  to_ : String
  subject : String
  date : Nat
  body : String
  messageId : String
  inReplyTo : String
  references : String
  html : String
  uid : String
  type : String
  attachments : List String
deriving Repr, DecidableEq

/-- A ticket document plus its `messages` subcollection. `id` models the
Firestore document id. `aiOn` is `Option` because listenToNewMessages.js 336
tests field presence with `'aiOn' in ticketData`. `lastAISuggestion` models
the field written by the suggestion path. -/
structure Ticket where
  id : String
  from_ : String
  to_ : String
  date : Nat
  subject : String
  lastMessage : String
  lastMessageDate : Nat
  status : String
  read : Bool
  ticketNumber : Nat
  messages : List Message
  aiOn : Option Bool := none
  lastAISuggestion : Option String := none
deriving Repr, DecidableEq

/-- A knowledgebase document (`Users/{uid}/knowledgebases/{company}`), with
the parent user id and its own document id made explicit so the
collection-group queries of `getUidWithTo` can be expressed. Absent boolean
flags are `false` (the JS reads them as `kb.aiMessagesOn || false`); an
absent `subdomain` is `""` (read as `kb.subdomain || 'aiknowledgedesk'`). -/
structure Knowledgebase where
  uid : String
  company : String
  subdomain : String
  defaultForward : String
  name : String
  aiMessagesOn : Bool := false
  aiSuggestionsOn : Bool := false
deriving Repr, DecidableEq

/-- The `{status, message, messageId?}` result objects returned by
makeContact2 / addMessageToInReplyToTicket / sendNewTicketConfirmation. -/
structure StatusResult where
  status : Nat
  message : String
  messageId : Option String := none
deriving Repr, DecidableEq

/-- The reply email handed to nodemailer by `sendNewTicketConfirmation`
(emailService.js): field names follow the `replyEmail` object literal. -/
structure SentEmail where
  to_ : String
  subject : String
  text : String
  html : String
  from_ : String
  inReplyTo : String
  references : String
deriving Repr, DecidableEq

/-- One `{role, content}` entry of the conversation history sent to the AI
responder. -/
structure ChatMessage where
  role : String
  content : String
deriving Repr, DecidableEq

/-! ### ticketHelpers.js -/

/-- The query `messagesRef.where('messageId', '==', inReplyTo)` of
ticketHelpers.js 29 is non-empty for this ticket. -/
def ticketHasMatch (t : Ticket) (inReplyTo : String) : Bool :=
  t.messages.any (fun m => m.messageId == inReplyTo)

/-- The two writes of the match branch (ticketHelpers.js 33-35): append the
message to the ticket's `messages` subcollection and merge
`{lastMessage, lastMessageDate, read: false}` into the ticket document. -/
def appendAndUpdate (t : Ticket) (messageData : Message) (body : String) (date : Nat) : Ticket :=
  { t with
    messages := t.messages ++ [messageData]
    lastMessage := body
    lastMessageDate := date
    read := false }

/-- `addMessageToInReplyToTicket` (ticketHelpers.js 18-43): scan the tickets
in snapshot order; the first ticket holding a message whose `messageId`
equals `inReplyTo` receives the new message and the summary update, and the
scan stops with status 1; if no ticket matches, nothing is written and the
structured status-0 result is returned. -/
def addMessageToInReplyToTicket (tickets : List Ticket) (inReplyTo : String)
    (messageData : Message) (body : String) (date : Nat) : List Ticket × StatusResult :=
  match tickets with
  | [] => ([], { status := 0, message := "No matching message found with the given inReplyTo value." })
  | t :: rest =>
    if ticketHasMatch t inReplyTo then
      (appendAndUpdate t messageData body date :: rest,
       { status := 1, message := "Message added to ticket: " ++ t.id })
    else
      let out := addMessageToInReplyToTicket rest inReplyTo messageData body date
      (t :: out.1, out.2)

/-- Role mapping of `getConversationHistory` (ticketHelpers.js 70-75):
`'AI'`/`'outbound'` map to `assistant`; a truthy type containing
`'Receiver'` maps to `user`; the default is also `user`. -/
def roleOf (type : String) : String :=
  if type == "AI" || type == "outbound" then "assistant"
  else if type != "" && includes type "Receiver" then "user"
  else "user"

/-- Content selection of `getConversationHistory` (ticketHelpers.js 79):
`data.body || data.html || ''`. -/
def contentOf (m : Message) : String :=
  if m.body != "" then m.body else if m.html != "" then m.html else ""

/-- The `orderBy('date', 'asc')` comparison used by the store. -/
def msgDateLe (a b : Message) : Prop :=
  a.date ≤ b.date

instance : DecidableRel msgDateLe := fun a b => Nat.decLe a.date b.date

instance : IsTotal Message msgDateLe := ⟨fun a b => Nat.le_total a.date b.date⟩

instance : IsTrans Message msgDateLe := ⟨fun _ _ _ h h2 => Nat.le_trans h h2⟩

/-- `getConversationHistory` (ticketHelpers.js 52-88): the ticket's messages,
sorted by `date` ascending (the store's stable order-by is modelled by a
stable insertion sort), each mapped to `{role, content}`. -/
def getConversationHistory (msgs : List Message) : List ChatMessage :=
  (List.insertionSort msgDateLe msgs).map (fun m => { role := roleOf m.type, content := contentOf m })

/-! ### userHelpers.js -/

/-- `getUidWithTo` (userHelpers.js 16-56): a collection-group query over all
knowledgebase documents. A subdomain equal to the part of `to` before `'@'`
wins; otherwise the first `defaultForward` equality match; otherwise `none`.
(When `to` has no `'@'`, `extractEmailName` is `null` and the subdomain
equality query matches nothing.) The `selectedCompany` argument is unused by
the source queries and therefore not a parameter here. -/
def getUidWithTo (kbs : List Knowledgebase) (to_ : String) : Option String :=
  let emailName := extractEmailName to_
  let subdomainMatch : Option Knowledgebase :=
    match emailName with
    | none => none
    | some n => kbs.find? (fun k => k.subdomain == n)
  match subdomainMatch with
  | some k => some k.uid
  | none => (kbs.find? (fun k => k.defaultForward == to_)).map (fun k => k.uid)

/-- `getCompanyName` (userHelpers.js 64-80): the `name` field of the
knowledgebase document, or the fallback when the document is missing. -/
def getCompanyName (kbs : List Knowledgebase) (uid selectedCompany : String) : String :=
  match kbs.find? (fun k => k.uid == uid && k.company == selectedCompany) with
  | some k => k.name
  | none => "Company Name"

/-- `getSubdomain` (userHelpers.js 88-104): the `subdomain` field of the
knowledgebase document, or the fallback when the document is missing. -/
def getSubdomain (kbs : List Knowledgebase) (uid selectedCompany : String) : String :=
  match kbs.find? (fun k => k.uid == uid && k.company == selectedCompany) with
  | some k => k.subdomain
  | none => "aiknowledgedesk"

/-! ### makeContact.js -/

/-- The external collaborators of the makeContact path: the regex-based HTML
quote stripper (emailHelpers.js `removeEmailQuotes`, an opaque pure text
transform per spec scope), the HTML template renderer
(`getNewTicketConfirmationHTML`, arguments in source order), and the SMTP
send (`sendNewTicketConfirmation`), whose status object is delivery
dependent. -/
structure ExternalEmail where
  removeEmailQuotes : String → String
  confirmationHTML : String → String → String → Nat → String → String → String → String →
    String → String → Nat → String → String → String
  smtpSend : SentEmail → StatusResult

/-- Body preprocessing of makeContact.js 44-46: quoted-reply extraction runs
unless the body is the `'N/A'` sentinel or empty. -/
def processBody (body : String) : String :=
  if body != "N/A" && body != "" then extractTopLevelMessage body else body

/-- The Firestore auto-generated id of `ticketsCollection.add`, modelled as a
deterministic fresh id over the current collection (no claim depends on its
value, only on its independence from the caller-supplied `uid`). -/
def freshTicketId (tickets : List Ticket) : String :=
  "ticket-" ++ toString tickets.length

/-- Everything `makeContact2` leaves behind: the tickets collection of the
resolved user, the confirmation emails handed to SMTP, and the returned
status object. -/
structure MakeContactOutput where
  tickets : List Ticket
  emails : List SentEmail
  result : StatusResult

/-- `makeContact2` (makeContact.js 34-122). The caller-supplied `uid`
parameter is immediately overwritten by `getUidWithTo(to)` (line 37), exactly
as in the source; a `null` lookup returns the status-0 `"Uid not found"`
object before any write. On the `'N/A'` sentinel a new ticket is created
with `ticketNumber` = snapshot size + 1 and the message appended, then the
confirmation email is rendered and sent; otherwise the reply is routed
through `addMessageToInReplyToTicket`. -/
def makeContact2 (ext : ExternalEmail) (kbs : List Knowledgebase) (tickets : List Ticket)
    (from_ to_ subject : String) (date : Nat) (body messageId inReplyTo references uid html : String)
    (downloadURLs : List String) (selectedCompany : String) : MakeContactOutput :=
  match getUidWithTo kbs to_ with
  | none => { tickets := tickets, emails := [], result := { status := 0, message := "Uid not found" } }
  | some uid =>
    let body := processBody body
    let html := if html == "N/A" then body else ext.removeEmailQuotes html
    let messageData : Message :=
      { from_ := from_, to_ := to_, subject := subject, date := date, body := body,
        messageId := messageId, inReplyTo := inReplyTo, references := references,
        html := html, uid := uid, type := "humanReceiver", attachments := downloadURLs }
    if inReplyTo == "N/A" then
      let ticketNumber := tickets.length + 1
      let newTicket : Ticket :=
        { id := freshTicketId tickets, from_ := from_, to_ := to_, date := date,
          subject := subject, lastMessage := body, lastMessageDate := date,
          status := "Open", read := false, ticketNumber := ticketNumber,
          messages := [messageData] }
      let companyname := getCompanyName kbs uid selectedCompany
      let subdomain := getSubdomain kbs uid selectedCompany
      let theHtml := ext.confirmationHTML from_ to_ subject date body messageId inReplyTo
        references uid html ticketNumber companyname subdomain
      let email : SentEmail :=
        { to_ := from_, subject := "Ticket Received",
          text := "We received your ticket. Please expect a response in the next 24 hours.",
          html := theHtml, from_ := subdomain ++ "@ourkd.help",
          inReplyTo := messageId, references := references }
      { tickets := tickets ++ [newTicket], emails := [email], result := ext.smtpSend email }
    else
      let out := addMessageToInReplyToTicket tickets inReplyTo messageData body date
      { tickets := out.1, emails := [], result := out.2 }

/-! ### listenToNewMessages.js: notification delivery -/

/-- A document of the user's `tokens` subcollection; an absent/falsy
`fcmToken` is `""` (the JS keeps a token only `if (tokenData.fcmToken)`). -/
structure TokenDoc where
  fcmToken : String
deriving Repr, DecidableEq

/-- Token extraction of sendNotificationToUser (listenToNewMessages.js
80-86): keep the truthy `fcmToken` values in snapshot order. -/
def extractTokens (docs : List TokenDoc) : List String :=
  docs.filterMap (fun d => if d.fcmToken != "" then some d.fcmToken else none)

/-- The 500-token cap of listenToNewMessages.js 93-96
(`registrationTokens.length = 500` truncates to the first 500). -/
def attemptedTokens (docs : List TokenDoc) : List String :=
  let registrationTokens := extractTokens docs
  if registrationTokens.length > 500 then registrationTokens.take 500 else registrationTokens

/-- Behavior of the external `admin.messaging().sendMulticast` call: either
it resolves with per-token success flags, or it throws. -/
inductive MulticastOutcome where
  | ok (responses : List Bool)
  | thrown (errorMessage : String)

/-- The result objects of `sendNotificationToUser`; fields absent from a
given JS return object are `none`. -/
structure NotifyResult where
  success : Bool
  successCount : Option Nat := none
  failureCount : Option Nat := none
  message : Option String := none
  error : Option String := none
deriving Repr, DecidableEq

/-- The delivery stage of sendNotificationToUser (listenToNewMessages.js
112-205): try the batch call; when it resolves, return `success: true` with
its per-token counts (per-token failures are only logged); when it throws,
fall back to sending one token at a time, reporting success exactly when at
least one individual send succeeded. `batch`/`single` are the external FCM
collaborators. -/
def deliverTokens (tokens : List String) (batch : List String → MulticastOutcome)
    (single : String → Bool) : NotifyResult :=
  match batch tokens with
  | .ok responses =>
    { success := true,
      successCount := some (responses.count true),
      failureCount := some (responses.count false) }
  | .thrown errorMessage =>
    let successCount := tokens.countP single
    if successCount > 0 then
      { success := true,
        successCount := some successCount,
        failureCount := some (tokens.length - successCount) }
    else
      { success := false, error := some ("All individual message sends failed: " ++ errorMessage) }

/-- `sendNotificationToUser` (listenToNewMessages.js 65-213): early returns
for an empty token snapshot and for no valid tokens, then the cap and the
delivery stage. -/
def sendNotificationToUser (docs : List TokenDoc) (batch : List String → MulticastOutcome)
    (single : String → Bool) : NotifyResult :=
  if docs.isEmpty then { success := false, message := some "No tokens found" }
  else if (extractTokens docs).isEmpty then { success := false, message := some "No valid tokens found" }
  else deliverTokens (attemptedTokens docs) batch single

/-! ### listenToNewMessages.js: AI reply / suggestion decision -/

/-- The payload handed to the outbound-email API (listenToNewMessages.js
391-401), restricted to its message-level fields (`uid` / `selectedCompany`
/ `ticketId` are the trigger's path parameters). Note the source computes
`fromEmail` but does not place it in this payload; the constructed
from-address is recorded separately in `LNMAction.emailSent`. -/
structure OutboundEmail where
  to_ : String
  subject : String
  message : String
  replyToId : String
  references : String
deriving Repr, DecidableEq

/-- The terminal store/network action of one listenToNewMessages invocation:
nothing, the auto-reply email path (with the constructed from-address), or
the `lastAISuggestion` ticket update. -/
inductive LNMAction where
  | noAction
  | emailSent (fromEmail : String) (payload : OutboundEmail)
  | suggestionStored (suggestion : String)
deriving Repr, DecidableEq

/-- What one listenToNewMessages invocation did: whether the push
notification block ran, whether the AI responder was called, and the
terminal action. -/
structure LNMOutcome where
  notified : Bool
  aiCalled : Bool
  action : LNMAction
deriving Repr, DecidableEq

/-- The conversation history handed to the AI responder
(listenToNewMessages.js 352-361): the stored history plus the just-arrived
message's body when truthy. -/
def lnmHistory (messageData : Message) (storedMessages : List Message) : List ChatMessage :=
  getConversationHistory storedMessages ++
    (if messageData.body != "" then [{ role := "user", content := messageData.body }] else [])

/-- The event handler of `listenToNewMessages` (listenToNewMessages.js
249-428) after the three documents have been fetched successfully.
`aiRespond` is the external employee-respond API: `none` models a thrown
call or missing content, and an empty string is the falsy-content early
return. Gate order follows the source: notification (gated only on the
`Receiver` type), both-flags-off return, ticket-level `aiOn === false`
return, non-receiver return, then the AI call and the
`aiMessagesOn`-before-`aiSuggestionsOn` delivery decision. -/
def listenToNewMessages (kb : Knowledgebase) (ticketData : Ticket) (messageData : Message)
    (aiRespond : List ChatMessage → Option String) : LNMOutcome :=
  let notified := includes messageData.type "Receiver"
  if !kb.aiMessagesOn && !kb.aiSuggestionsOn then
    { notified := notified, aiCalled := false, action := .noAction }
  else if ticketData.aiOn == some false then
    { notified := notified, aiCalled := false, action := .noAction }
  else if !(includes messageData.type "Receiver") then
    { notified := notified, aiCalled := false, action := .noAction }
  else
    match aiRespond (lnmHistory messageData ticketData.messages) with
    | none => { notified := notified, aiCalled := true, action := .noAction }
    | some aiResponse =>
      if aiResponse == "" then { notified := notified, aiCalled := true, action := .noAction }
      else if kb.aiMessagesOn then
        let subdomain := if kb.subdomain != "" then kb.subdomain else "aiknowledgedesk"
        { notified := notified, aiCalled := true,
          action := .emailSent (subdomain ++ "@ourkd.help")
            { to_ := ticketData.from_, subject := ticketData.subject, message := aiResponse,
              replyToId := messageData.messageId, references := messageData.references } }
      else if kb.aiSuggestionsOn then
        { notified := notified, aiCalled := true, action := .suggestionStored aiResponse }
      else
        { notified := notified, aiCalled := true, action := .noAction }

/-! ### actionTriggerHelper.js -/

/-- An action definition document (`actions` collection), as read by
`runActionTriggers`. -/
structure ActionDef where
  id : String
  trigger : String
  enabled : Bool
  prompt : String
  employee : String
deriving Repr, DecidableEq

/-- The `pending` audit event created for one dispatched action
(actionTriggerHelper.js 46-61) together with the webhook payload fields that
come from the action definition. -/
structure ActionEvent where
  actionId : String
  status : String
  actionPrompt : String
  employeeId : String
deriving Repr, DecidableEq

/-- `runActionTriggers` (actionTriggerHelper.js 16-113): query the enabled
actions of the given trigger type (zero matches is a no-op) and, per action,
create a `pending` audit event and invoke the webhook; per-action failures
are caught, so every matching action is attempted. The created events, in
order, are returned. -/
def runActionTriggers (actions : List ActionDef) (triggerType : String) : List ActionEvent :=
  (actions.filter (fun a => a.trigger == triggerType && a.enabled)).map
    (fun a => { actionId := a.id, status := "pending", actionPrompt := a.prompt, employeeId := a.employee })

/-- Modelled from the spec: the call sites that dispatch the `ticket_reply` /
`new_ticket` custom action triggers on inbound message events are not among
the sources here — only the `runActionTriggers` helper itself
(actionTriggerHelper.js) and its `question_answered` call site
(listenToAnsweredQuestions) are present. Per spec §4.3 rule 1 and §8, the
dispatch runs on every inbound message event regardless of
`aiMessagesOn`/`aiSuggestionsOn` and of the ticket-level `aiOn` override,
and the trigger type is decided only by whether `inReplyTo` is the `'N/A'`
sentinel (`new_ticket`) or not (`ticket_reply`). -/
def dispatchMessageActions (kb : Knowledgebase) (ticketData : Ticket) (actions : List ActionDef)
    (inReplyTo : String) : List ActionEvent :=
  runActionTriggers actions (if inReplyTo == "N/A" then "new_ticket" else "ticket_reply")

/-! ### Concrete fixtures used by the witness instantiations -/

/-- A concrete inbound message with the given `messageId`. -/
def sampleMessage (mid : String) : Message :=
  { from_ := "customer@example.com", to_ := "acme@ourkd.help", subject := "Help", date := 5,
    body := "Hello", messageId := mid, inReplyTo := "N/A", references := "",
    html := "<p>Hello</p>", uid := "u1", type := "humanReceiver", attachments := [] }

/-- A concrete ticket with the given id and messages. -/
def sampleTicket (tid : String) (msgs : List Message) : Ticket :=
  { id := tid, from_ := "customer@example.com", to_ := "acme@ourkd.help", date := 5,
    subject := "Help", lastMessage := "Hello", lastMessageDate := 5, status := "Open",
    read := false, ticketNumber := 1, messages := msgs }

/-- The sample ticket with a given ticket-level `aiOn` override state. -/
def sampleTicketAI (b : Option Bool) : Ticket :=
  { sampleTicket "t1" [] with aiOn := b }

/-- A concrete knowledgebase document with both AI flags on. -/
def sampleKB : Knowledgebase :=
  { uid := "u1", company := "default", subdomain := "acme",
    defaultForward := "fwd@example.com", name := "Acme",
    aiMessagesOn := true, aiSuggestionsOn := true }

/-- Concrete external collaborators for the makeContact path. -/
def sampleExt : ExternalEmail :=
  { removeEmailQuotes := fun s => s,
    confirmationHTML := fun _ _ _ _ _ _ _ _ _ _ _ _ _ => "<html></html>",
    smtpSend := fun _ =>
      { status := 1, message := "New ticket confirmation sent", messageId := some "smtp-1" } }

/-- A concrete AI responder that always answers. -/
def sampleAI : List ChatMessage → Option String :=
  fun _ => some "Hi there"

/-! ### Theorems -/

/-- Helper: the no-match scan leaves the number of tickets unchanged. -/
theorem addMessageToInReplyToTicket_length (tickets : List Ticket) (inReplyTo : String)
    (messageData : Message) (body : String) (date : Nat) :
    (addMessageToInReplyToTicket tickets inReplyTo messageData body date).1.length =
      tickets.length := by
  induction tickets with
  | nil => rfl
  | cons t rest ih =>
    by_cases hm : ticketHasMatch t inReplyTo
    · simp [addMessageToInReplyToTicket, hm]
    · simp [addMessageToInReplyToTicket, hm, ih]

/-- C4: when no stored message's `messageId` equals `inReplyTo`, the scan
returns the structured status-0 result with the exact failure message and
leaves every ticket untouched. -/
theorem addMessageToInReplyToTicket_no_match (tickets : List Ticket) (inReplyTo : String)
    (messageData : Message) (body : String) (date : Nat)
    (h : ∀ t ∈ tickets, ticketHasMatch t inReplyTo = false) :
    addMessageToInReplyToTicket tickets inReplyTo messageData body date =
      (tickets,
       { status := 0, message := "No matching message found with the given inReplyTo value." }) := by
  induction tickets with
  | nil => rfl
  | cons t rest ih =>
    have ht : ticketHasMatch t inReplyTo = false := h t (by simp)
    have ihh := ih (fun u hu => h u (by simp [hu]))
    simp [addMessageToInReplyToTicket, ht, ihh]

/-- C4 witness: a concrete reply whose `inReplyTo` matches nothing. -/
theorem addMessageToInReplyToTicket_no_match_witness :
    addMessageToInReplyToTicket [sampleTicket "t1" [sampleMessage "m1"]] "zzz"
        (sampleMessage "m2") "Hello" 5 =
      ([sampleTicket "t1" [sampleMessage "m1"]],
       { status := 0, message := "No matching message found with the given inReplyTo value." }) :=
  addMessageToInReplyToTicket_no_match [sampleTicket "t1" [sampleMessage "m1"]] "zzz"
    (sampleMessage "m2") "Hello" 5 (by decide)

/-- C3: when some stored message matches `inReplyTo`, the first matching
ticket (in snapshot order) receives exactly the appended message and the
`lastMessage`/`lastMessageDate`/`read` summary update, every other ticket is
unchanged, the result is status 1, and — when the caller passes the
message's own body and date, as makeContact2 does — the summary fields equal
the body and date of the most recently appended message. -/
theorem addMessageToInReplyToTicket_first_match (tickets : List Ticket) (inReplyTo : String)
    (messageData : Message) (body : String) (date : Nat)
    (h : tickets.any (fun t => ticketHasMatch t inReplyTo) = true) :
    (addMessageToInReplyToTicket tickets inReplyTo messageData body date).2.status = 1 ∧
    ∃ pre t post,
      tickets = pre ++ t :: post ∧
      (∀ u ∈ pre, ticketHasMatch u inReplyTo = false) ∧
      ticketHasMatch t inReplyTo = true ∧
      (addMessageToInReplyToTicket tickets inReplyTo messageData body date).1 =
        pre ++ appendAndUpdate t messageData body date :: post ∧
      (appendAndUpdate t messageData body date).messages = t.messages ++ [messageData] ∧
      (appendAndUpdate t messageData body date).lastMessage = body ∧
      (appendAndUpdate t messageData body date).lastMessageDate = date ∧
      (appendAndUpdate t messageData body date).read = false ∧
      (messageData.body = body → messageData.date = date →
        (appendAndUpdate t messageData body date).messages.getLast? = some messageData ∧
        (appendAndUpdate t messageData body date).lastMessage = messageData.body ∧
        (appendAndUpdate t messageData body date).lastMessageDate = messageData.date) := by
  induction tickets with
  | nil => simp at h
  | cons t rest ih =>
    by_cases hm : ticketHasMatch t inReplyTo
    · refine ⟨by simp [addMessageToInReplyToTicket, hm], [], t, rest, by simp, by simp, hm, ?_, ?_, rfl, rfl, rfl, ?_⟩
      · simp [addMessageToInReplyToTicket, hm]
      · simp [appendAndUpdate]
      · intro hb hd
        refine ⟨?_, by simp [appendAndUpdate, hb], by simp [appendAndUpdate, hd]⟩
        simp [appendAndUpdate]
    · have hrest : rest.any (fun u => ticketHasMatch u inReplyTo) = true := by
        simpa [hm] using h
      obtain ⟨hstat, pre, t', post, hdec, hpre, hmatch, hout, hrest'⟩ := ih hrest
      refine ⟨?_, t :: pre, t', post, by simp [hdec], ?_, hmatch, ?_, hrest'⟩
      · simpa [addMessageToInReplyToTicket, hm] using hstat
      · intro u hu
        rcases List.mem_cons.mp hu with h1 | h2
        · simpa [h1] using hm
        · exact hpre u h2
      · simpa [addMessageToInReplyToTicket, hm] using hout

/-- C3 witness: the status-1 outcome of the theorem at a concrete matching
reply. -/
theorem addMessageToInReplyToTicket_first_match_witness :
    (addMessageToInReplyToTicket [sampleTicket "t1" [sampleMessage "m1"]] "m1"
        (sampleMessage "m2") "Hello" 5).2.status = 1 :=
  (addMessageToInReplyToTicket_first_match [sampleTicket "t1" [sampleMessage "m1"]] "m1"
    (sampleMessage "m2") "Hello" 5 (by decide)).1

/-- C2: on an inbound message with the `'N/A'` sentinel and a resolvable
recipient, makeContact2 appends exactly one new ticket to the collection,
with `ticketNumber` = prior ticket count + 1, `status = "Open"`,
`read = false`, `lastMessage`/`lastMessageDate` equal to the (processed)
body and date, and exactly one message document — the inbound message —
inside it. -/
theorem makeContact2_new_ticket (ext : ExternalEmail) (kbs : List Knowledgebase)
    (tickets : List Ticket) (from_ to_ subject : String) (date : Nat)
    (body messageId inReplyTo references uid html : String) (downloadURLs : List String)
    (selectedCompany u : String)
    (hu : getUidWithTo kbs to_ = some u) (hr : inReplyTo = "N/A") :
    (makeContact2 ext kbs tickets from_ to_ subject date body messageId inReplyTo references
        uid html downloadURLs selectedCompany).tickets =
      tickets ++
        [{ id := freshTicketId tickets, from_ := from_, to_ := to_, date := date,
           subject := subject, lastMessage := processBody body, lastMessageDate := date,
           status := "Open", read := false, ticketNumber := tickets.length + 1,
           messages := [{ from_ := from_, to_ := to_, subject := subject, date := date,
                          body := processBody body, messageId := messageId,
                          inReplyTo := inReplyTo, references := references,
                          html := if html == "N/A" then processBody body
                                  else ext.removeEmailQuotes html,
                          uid := u, type := "humanReceiver",
                          attachments := downloadURLs }] }] := by
  subst hr
  simp [makeContact2, hu]

/-- C2 witness: a concrete sentinel message on an empty collection creates
the single expected ticket. -/
theorem makeContact2_new_ticket_witness :
    (makeContact2 sampleExt [sampleKB] [] "customer@example.com" "acme@ourkd.help" "Help" 5
        "" "m1" "N/A" "" "caller-supplied-uid" "N/A" [] "default").tickets =
      [] ++
        [{ id := freshTicketId [], from_ := "customer@example.com", to_ := "acme@ourkd.help",
           date := 5, subject := "Help", lastMessage := processBody "", lastMessageDate := 5,
           status := "Open", read := false, ticketNumber := ([] : List Ticket).length + 1,
           messages := [{ from_ := "customer@example.com", to_ := "acme@ourkd.help",
                          subject := "Help", date := 5, body := processBody "",
                          messageId := "m1", inReplyTo := "N/A", references := "",
                          html := if ("N/A" : String) == "N/A" then processBody ""
                                  else sampleExt.removeEmailQuotes "N/A",
                          uid := "u1", type := "humanReceiver", attachments := [] }] }] :=
  makeContact2_new_ticket sampleExt [sampleKB] [] "customer@example.com" "acme@ourkd.help"
    "Help" 5 "" "m1" "N/A" "" "caller-supplied-uid" "N/A" [] "default" "u1" (by decide) rfl

/-- C9: the caller-supplied `uid` argument never influences makeContact2 —
the result and every write are identical for any two `uid` arguments; when
no knowledgebase resolves the `to` address the call returns the status-0
`"Uid not found"` object with the collection unchanged and no email sent;
and every ticket the call appends carries only messages stamped with the
uid recomputed from the `to` address. -/
theorem makeContact2_uid_arg_irrelevant (ext : ExternalEmail) (kbs : List Knowledgebase)
    (tickets : List Ticket) (from_ to_ subject : String) (date : Nat)
    (body messageId inReplyTo references html : String) (downloadURLs : List String)
    (selectedCompany : String) (uid1 uid2 : String) :
    makeContact2 ext kbs tickets from_ to_ subject date body messageId inReplyTo references
        uid1 html downloadURLs selectedCompany =
      makeContact2 ext kbs tickets from_ to_ subject date body messageId inReplyTo references
        uid2 html downloadURLs selectedCompany ∧
    (getUidWithTo kbs to_ = none →
      makeContact2 ext kbs tickets from_ to_ subject date body messageId inReplyTo references
          uid1 html downloadURLs selectedCompany =
        { tickets := tickets, emails := [],
          result := { status := 0, message := "Uid not found" } }) ∧
    (∀ u, getUidWithTo kbs to_ = some u →
      (((makeContact2 ext kbs tickets from_ to_ subject date body messageId inReplyTo references
            uid1 html downloadURLs selectedCompany).tickets.drop tickets.length).all
        (fun t => t.messages.all (fun m => m.uid == u))) = true) := by
  refine ⟨rfl, ?_, ?_⟩
  · intro hn
    simp [makeContact2, hn]
  · intro u hu
    have key : ∀ (md : Message) (b : String),
        ((addMessageToInReplyToTicket tickets inReplyTo md b date).1).drop tickets.length = [] := by
      intro md b
      have hlen := addMessageToInReplyToTicket_length tickets inReplyTo md b date
      rw [← hlen]
      exact List.drop_length _
    by_cases hr : (inReplyTo == "N/A") = true
    · simp [makeContact2, hu, hr]
    · simp [makeContact2, hu, hr, key]

/-- C9 witness: the uid-irrelevance equation at two different caller uids,
the no-match failure object on an empty knowledgebase collection, and the
recomputed-uid stamp on a resolvable address. -/
theorem makeContact2_uid_arg_irrelevant_witness :
    (makeContact2 sampleExt [sampleKB] [] "customer@example.com" "acme@ourkd.help" "Help" 5
        "Hello" "m1" "N/A" "" "uidA" "<p>Hello</p>" [] "default" =
      makeContact2 sampleExt [sampleKB] [] "customer@example.com" "acme@ourkd.help" "Help" 5
        "Hello" "m1" "N/A" "" "uidB" "<p>Hello</p>" [] "default") ∧
    (makeContact2 sampleExt [] [] "customer@example.com" "nobody@nowhere" "Help" 5
        "Hello" "m1" "N/A" "" "uidA" "<p>Hello</p>" [] "default" =
      { tickets := [], emails := [],
        result := { status := 0, message := "Uid not found" } }) ∧
    (((makeContact2 sampleExt [sampleKB] [] "customer@example.com" "acme@ourkd.help" "Help" 5
          "Hello" "m1" "N/A" "" "uidA" "<p>Hello</p>" [] "default").tickets.drop
        ([] : List Ticket).length).all (fun t => t.messages.all (fun m => m.uid == "u1"))) = true :=
  ⟨(makeContact2_uid_arg_irrelevant sampleExt [sampleKB] [] "customer@example.com"
      "acme@ourkd.help" "Help" 5 "Hello" "m1" "N/A" "" "<p>Hello</p>" [] "default"
      "uidA" "uidB").1,
   (makeContact2_uid_arg_irrelevant sampleExt [] [] "customer@example.com"
      "nobody@nowhere" "Help" 5 "Hello" "m1" "N/A" "" "<p>Hello</p>" [] "default"
      "uidA" "uidB").2.1 (by decide),
   (makeContact2_uid_arg_irrelevant sampleExt [sampleKB] [] "customer@example.com"
      "acme@ourkd.help" "Help" 5 "Hello" "m1" "N/A" "" "<p>Hello</p>" [] "default"
      "uidA" "uidB").2.2 "u1" (by decide)⟩

/-- C5: the conversation history is the ticket's messages in non-decreasing
`date` order (a permutation of the stored set), each mapped to
`{role, content}`, where the role is the pure function of the type tag
(`AI`/`outbound` give `assistant`, everything else — including the
`Receiver` types — gives `user`) and the content is `body`, else `html`,
else the empty string. -/
theorem getConversationHistory_sorted_roles (msgs : List Message) :
    ∃ sorted : List Message,
      sorted.Perm msgs ∧
      sorted.Pairwise msgDateLe ∧
      getConversationHistory msgs =
        sorted.map (fun m => { role := roleOf m.type, content := contentOf m }) ∧
      (∀ ty : String, roleOf ty = if ty = "AI" ∨ ty = "outbound" then "assistant" else "user") ∧
      (∀ m : Message,
        contentOf m = if m.body = "" then (if m.html = "" then "" else m.html) else m.body) := by
  refine ⟨List.insertionSort msgDateLe msgs, List.perm_insertionSort msgDateLe msgs,
    List.sorted_insertionSort msgDateLe msgs, rfl, ?_, ?_⟩
  · intro ty
    by_cases h : ty = "AI" ∨ ty = "outbound"
    · have hb : (ty == "AI" || ty == "outbound") = true := by
        rcases h with h | h <;> simp [h]
      rw [roleOf, if_pos hb, if_pos h]
    · have hb : (ty == "AI" || ty == "outbound") = false := by
        push_neg at h
        simp [h.1, h.2]
      rw [roleOf, if_neg (by simp [hb]), if_neg h]
      split <;> rfl
  · intro m
    by_cases hb : m.body = "" <;> by_cases hh : m.html = "" <;> simp [contentOf, hb, hh]

/-- C7: a ticket-level `aiOn` field equal to `false` makes the handler
return with no AI responder call and no action, whatever the org flags are;
when the field is absent, the org flags alone decide whether the AI call is
made for an inbound customer message. -/
theorem listenToNewMessages_aiOn_gate (kb : Knowledgebase) (ticketData : Ticket)
    (messageData : Message) (aiRespond : List ChatMessage → Option String) :
    (ticketData.aiOn = some false →
      (listenToNewMessages kb ticketData messageData aiRespond).aiCalled = false ∧
      (listenToNewMessages kb ticketData messageData aiRespond).action = .noAction) ∧
    (ticketData.aiOn = none → includes messageData.type "Receiver" = true →
      (listenToNewMessages kb ticketData messageData aiRespond).aiCalled =
        (kb.aiMessagesOn || kb.aiSuggestionsOn)) := by
  constructor
  · intro h
    cases hb : (!kb.aiMessagesOn && !kb.aiSuggestionsOn) <;>
      simp [listenToNewMessages, h, hb]
  · intro h hr
    cases hm : kb.aiMessagesOn <;> cases hs : kb.aiSuggestionsOn <;>
      simp only [listenToNewMessages, h, hr, hm, hs] <;>
      simp <;>
      cases aiRespond (lnmHistory messageData ticketData.messages) <;>
      simp <;>
      split <;> simp

/-- C7 witness: the gate at a concrete explicit `aiOn = false` override, and
the org-flag decision at a concrete absent override. -/
theorem listenToNewMessages_aiOn_gate_witness :
    (listenToNewMessages sampleKB (sampleTicketAI (some false)) (sampleMessage "m1")
        sampleAI).aiCalled = false ∧
    (listenToNewMessages sampleKB (sampleTicketAI none) (sampleMessage "m1")
        sampleAI).aiCalled = (sampleKB.aiMessagesOn || sampleKB.aiSuggestionsOn) :=
  ⟨((listenToNewMessages_aiOn_gate sampleKB (sampleTicketAI (some false)) (sampleMessage "m1")
      sampleAI).1 rfl).1,
   (listenToNewMessages_aiOn_gate sampleKB (sampleTicketAI none) (sampleMessage "m1")
      sampleAI).2 rfl (by decide)⟩

/-- C6: with both org flags on, an inbound customer message, no blocking
ticket override, and a produced (truthy) AI response, the handler takes the
auto-reply email path, constructing the from-address
`{subdomain}@ourkd.help`, and never stores a suggestion; conversely a
suggestion is stored only when `aiMessagesOn` is off and `aiSuggestionsOn`
is on. -/
theorem listenToNewMessages_flag_priority (kb : Knowledgebase) (ticketData : Ticket)
    (messageData : Message) (aiRespond : List ChatMessage → Option String) (r : String) :
    (kb.aiMessagesOn = true → kb.aiSuggestionsOn = true → ticketData.aiOn ≠ some false →
      includes messageData.type "Receiver" = true →
      aiRespond (lnmHistory messageData ticketData.messages) = some r → r ≠ "" →
      kb.subdomain ≠ "" →
      (listenToNewMessages kb ticketData messageData aiRespond).action =
        .emailSent (kb.subdomain ++ "@ourkd.help")
          { to_ := ticketData.from_, subject := ticketData.subject, message := r,
            replyToId := messageData.messageId, references := messageData.references } ∧
      (∀ s, (listenToNewMessages kb ticketData messageData aiRespond).action ≠
        .suggestionStored s)) ∧
    (∀ s, (listenToNewMessages kb ticketData messageData aiRespond).action =
        .suggestionStored s →
      kb.aiMessagesOn = false ∧ kb.aiSuggestionsOn = true) := by
  constructor
  · intro hm hs hai hr hresp hrne hsub
    have hai' : (ticketData.aiOn == some false) = false := by
      cases h : ticketData.aiOn with
      | none => rfl
      | some b => cases b <;> simp_all
    have hrne' : (r == "") = false := by simpa using hrne
    have hsub' : (kb.subdomain != "") = true := by simpa using hsub
    refine ⟨?_, ?_⟩
    · simp [listenToNewMessages, hm, hs, hai', hr, hresp, hrne', hsub']
    · intro s
      simp [listenToNewMessages, hm, hs, hai', hr, hresp, hrne', hsub']
  · intro s h
    cases hm : kb.aiMessagesOn <;> cases hs : kb.aiSuggestionsOn
    · simp [listenToNewMessages, hm, hs] at h
    · exact ⟨rfl, rfl⟩
    all_goals
      exfalso
      simp only [listenToNewMessages, hm, hs] at h
      simp at h
      repeat' split at h
      all_goals simp at h

/-- C6 witness: the auto-reply path at a concrete both-flags-on
knowledgebase with a concrete responder answer. -/
theorem listenToNewMessages_flag_priority_witness :
    (listenToNewMessages sampleKB (sampleTicketAI none) (sampleMessage "m1") sampleAI).action =
      .emailSent (sampleKB.subdomain ++ "@ourkd.help")
        { to_ := (sampleTicketAI none).from_, subject := (sampleTicketAI none).subject,
          message := "Hi there", replyToId := (sampleMessage "m1").messageId,
          references := (sampleMessage "m1").references } :=
  ((listenToNewMessages_flag_priority sampleKB (sampleTicketAI none) (sampleMessage "m1")
      sampleAI "Hi there").1 rfl rfl (by decide) (by decide) rfl (by decide) (by decide)).1

/-- C10: the token list actually attempted is the first 500 extracted tokens
— never more, exactly 500 when more were registered — and the whole delivery
(batch call and per-token fallback alike) operates on that capped list. -/
theorem sendNotificationToUser_caps_500 (docs : List TokenDoc)
    (batch : List String → MulticastOutcome) (single : String → Bool) :
    (attemptedTokens docs).length ≤ 500 ∧
    attemptedTokens docs = (extractTokens docs).take 500 ∧
    ((extractTokens docs).length > 500 → (attemptedTokens docs).length = 500) ∧
    (docs ≠ [] → extractTokens docs ≠ [] →
      sendNotificationToUser docs batch single =
        deliverTokens (attemptedTokens docs) batch single) := by
  refine ⟨?_, ?_, ?_, ?_⟩
  · rw [attemptedTokens]
    split
    · simp [List.length_take]
    · omega
  · rw [attemptedTokens]
    split
    · rfl
    · rw [List.take_of_length_le (by omega)]
  · intro hgt
    rw [attemptedTokens, if_pos hgt]
    simp [List.length_take]
    omega
  · intro hd hv
    rw [sendNotificationToUser, if_neg (by simpa using hd), if_neg (by simpa using hv)]

set_option maxRecDepth 4000 in
/-- C10 witness: 501 registered tokens are capped to 500, and the capped
delivery equation at the same inputs. -/
theorem sendNotificationToUser_caps_500_witness :
    (attemptedTokens (List.replicate 501 { fcmToken := "t" })).length = 500 ∧
    sendNotificationToUser (List.replicate 501 { fcmToken := "t" })
        (fun _ => .ok []) (fun _ => true) =
      deliverTokens (attemptedTokens (List.replicate 501 { fcmToken := "t" }))
        (fun _ => .ok []) (fun _ => true) :=
  ⟨(sendNotificationToUser_caps_500 (List.replicate 501 { fcmToken := "t" })
      (fun _ => .ok []) (fun _ => true)).2.2.1 (by decide),
   (sendNotificationToUser_caps_500 (List.replicate 501 { fcmToken := "t" })
      (fun _ => .ok []) (fun _ => true)).2.2.2 (by decide) (by decide)⟩

/-- C8 counterexample: one registered token, a batch call that resolves with
that token's delivery failed — the function still reports `success: true`
with `successCount = 0`, so "success iff at least one device token was
delivered to" is false on the batch path. -/
theorem sendNotificationToUser_success_despite_zero_delivered :
    (sendNotificationToUser [{ fcmToken := "tok1" }] (fun _ => .ok [false])
        (fun _ => false)).success = true ∧
    (sendNotificationToUser [{ fcmToken := "tok1" }] (fun _ => .ok [false])
        (fun _ => false)).successCount = some 0 := by
  exact ⟨rfl, rfl⟩

/-- C8 (amended): whenever the batch call resolves, the result is
`success: true` with the per-token counts — per-token failures (even all of
them) never fail the effect; only when the batch call itself throws does the
function fall back to one-token-at-a-time delivery, reporting success with
the individual counts exactly when at least one individual send succeeded,
and the all-sends-failed error object otherwise. -/
theorem sendNotificationToUser_batch_and_fallback (docs : List TokenDoc)
    (batch : List String → MulticastOutcome) (single : String → Bool)
    (hd : docs ≠ []) (hv : extractTokens docs ≠ []) :
    (∀ responses, batch (attemptedTokens docs) = .ok responses →
      sendNotificationToUser docs batch single =
        { success := true, successCount := some (responses.count true),
          failureCount := some (responses.count false) }) ∧
    (∀ e, batch (attemptedTokens docs) = .thrown e →
      0 < (attemptedTokens docs).countP single →
      sendNotificationToUser docs batch single =
        { success := true, successCount := some ((attemptedTokens docs).countP single),
          failureCount := some ((attemptedTokens docs).length -
            (attemptedTokens docs).countP single) }) ∧
    (∀ e, batch (attemptedTokens docs) = .thrown e →
      (attemptedTokens docs).countP single = 0 →
      sendNotificationToUser docs batch single =
        { success := false,
          error := some ("All individual message sends failed: " ++ e) }) := by
  have hsend : sendNotificationToUser docs batch single =
      deliverTokens (attemptedTokens docs) batch single := by
    rw [sendNotificationToUser, if_neg (by simpa using hd), if_neg (by simpa using hv)]
  refine ⟨?_, ?_, ?_⟩
  · intro responses hb
    rw [hsend, deliverTokens, hb]
  · intro e hb hpos
    rw [hsend, deliverTokens, hb]
    simp [hpos]
  · intro e hb hzero
    rw [hsend, deliverTokens, hb]
    simp [hzero]

/-- C8 witness: the batch-resolves equation at a concrete all-failed
response, and the fallback equations at a concrete throwing batch call. -/
theorem sendNotificationToUser_batch_and_fallback_witness :
    (sendNotificationToUser [{ fcmToken := "tok1" }] (fun _ => .ok [false]) (fun _ => false) =
      { success := true, successCount := some (List.count true [false]),
        failureCount := some (List.count false [false]) }) ∧
    (sendNotificationToUser [{ fcmToken := "tok1" }] (fun _ => .thrown "boom") (fun _ => true) =
      { success := true,
        successCount :=
          some ((attemptedTokens [{ fcmToken := "tok1" }]).countP (fun _ => true)),
        failureCount :=
          some ((attemptedTokens [{ fcmToken := "tok1" }]).length -
            (attemptedTokens [{ fcmToken := "tok1" }]).countP (fun _ => true)) }) ∧
    (sendNotificationToUser [{ fcmToken := "tok1" }] (fun _ => .thrown "boom") (fun _ => false) =
      { success := false,
        error := some ("All individual message sends failed: " ++ "boom") }) :=
  ⟨(sendNotificationToUser_batch_and_fallback [{ fcmToken := "tok1" }] (fun _ => .ok [false])
      (fun _ => false) (by decide) (by decide)).1 [false] rfl,
   (sendNotificationToUser_batch_and_fallback [{ fcmToken := "tok1" }] (fun _ => .thrown "boom")
      (fun _ => true) (by decide) (by decide)).2.1 "boom" rfl (by decide),
   (sendNotificationToUser_batch_and_fallback [{ fcmToken := "tok1" }] (fun _ => .thrown "boom")
      (fun _ => false) (by decide) (by decide)).2.2 "boom" rfl (by decide)⟩

/-- C1 (dispatch call sites modelled from the spec; `runActionTriggers`
itself from actionTriggerHelper.js): the custom action dispatch on an
inbound message event is identical for every combination of org AI flags
and ticket-level override, its trigger type is decided only by whether
`inReplyTo` is the `'N/A'` sentinel, and it fans out to exactly the enabled
action definitions of that trigger type. -/
theorem dispatchMessageActions_independent_of_ai_flags (kb1 kb2 : Knowledgebase)
    (t1 t2 : Ticket) (actions : List ActionDef) (inReplyTo : String) :
    dispatchMessageActions kb1 t1 actions inReplyTo =
      dispatchMessageActions kb2 t2 actions inReplyTo ∧
    dispatchMessageActions kb1 t1 actions inReplyTo =
      runActionTriggers actions (if inReplyTo == "N/A" then "new_ticket" else "ticket_reply") ∧
    runActionTriggers actions (if inReplyTo == "N/A" then "new_ticket" else "ticket_reply") =
      (actions.filter (fun a =>
          a.trigger == (if inReplyTo == "N/A" then "new_ticket" else "ticket_reply") &&
          a.enabled)).map
        (fun a => { actionId := a.id, status := "pending", actionPrompt := a.prompt,
                    employeeId := a.employee }) :=
  ⟨rfl, rfl, rfl⟩

end Evidah
